import Mathlib

/-!
Verification of the AutoRescue carrier-delay scan engine
(`src/actor/source-code/src/main.py`).

The Python engine is shallowly embedded: Python floats are modelled as exact
rationals (`ℚ`), timestamps as rational seconds since the epoch (UTC),
`Optional[str]` as `Option String`, decoded JSON / dynamic Python values as the
inductive `PyVal`, and dictionaries as association lists in insertion order.
External libraries with no algorithmic content in this repository (the `re`
regex engine together with its escaped-literal fallback, `dateutil` fuzzy date
parsing, ISO rendering, the wall clock, and the `hashlib.md5` hex digest) are
abstracted as an `Oracles` record of function parameters; every theorem
quantifies over them.  String predicates such as `str.isdigit` are modelled on
the character set exercised by this development (ASCII plus the superscript
digits, which Python classifies as digits although `int()` rejects them).
-/

namespace AutoRescue

/-- Dynamic Python/JSON value: `None`, booleans, ints, floats (as `ℚ`),
strings, lists, and dicts as insertion-ordered association lists. -/
inductive PyVal where
  | none : PyVal
  | bool : Bool → PyVal
  | int_ : Int → PyVal
  | float_ : ℚ → PyVal
  | str : String → PyVal
  | list : List PyVal → PyVal
  | dict : List (String × PyVal) → PyVal

/-- ASCII approximation of Python `\s` / `str.strip` whitespace. -/
def isPyWs (c : Char) : Bool :=
  c = ' ' || c = '\t' || c = '\n' || c = '\r' || c = '\x0b' || c = '\x0c'

/-- Split a character list at separator characters (runs collapse, empty
segments dropped) — models `re.split` on a character class followed by
discarding empty tokens. -/
def splitByAux (p : Char → Bool) : List Char → List Char → List String
  | [], acc => if acc.isEmpty then [] else [String.mk acc.reverse]
  | c :: rest, acc =>
    if p c then
      (if acc.isEmpty then splitByAux p rest []
       else String.mk acc.reverse :: splitByAux p rest [])
    else splitByAux p rest (c :: acc)

/-- `_normalize_whitespace`: collapse whitespace runs to single spaces and
trim the ends (`re.sub(r"\s+", " ", text or "").strip()`). -/
def normalize_whitespace (s : String) : String :=
  String.intercalate " " (splitByAux isPyWs s.toList [])

/-- Python `str.strip()`. -/
def pyStrip (s : String) : String :=
  String.mk (((s.toList.dropWhile isPyWs).reverse.dropWhile isPyWs).reverse)

/-- Python `str.rstrip()`. -/
def pyRstrip (s : String) : String :=
  String.mk ((s.toList.reverse.dropWhile isPyWs).reverse)

/-- Substring containment on character lists (Python `sub in s`). -/
def listContains (s p : List Char) : Bool :=
  if p.isPrefixOf s then true
  else
    match s with
    | [] => false
    | _ :: t => listContains t p

/-- Python `sub in s` for strings. -/
def py_in (sub s : String) : Bool :=
  listContains s.toList sub.toList

/-- Single-quote character (for Python `repr` of strings). -/
def sq : String := String.singleton (Char.ofNat 39)

/-- Join with `", "` as Python does when rendering lists and dicts. -/
def joinComma (xs : List String) : String := String.intercalate ", " xs

/-- Decimal rendering of a rational whose denominator divides a power of ten,
used to approximate Python `str(float)` for the terminating decimals produced
by the JSON number grammar. -/
def decExpand (q : ℚ) (k : Nat) : Option String :=
  if k > 25 then Option.none
  else if (q * (10 : ℚ) ^ k).den = 1 then
    let n := (q * (10 : ℚ) ^ k).num
    let sign := if n < 0 then "-" else ""
    let digits := toString n.natAbs
    let digits := if digits.length ≤ k then
        String.mk (List.replicate (k + 1 - digits.length) '0') ++ digits
      else digits
    let intPart := String.mk (digits.toList.take (digits.length - k))
    let fracPart := if k = 0 then "0" else String.mk (digits.toList.drop (digits.length - k))
    some (sign ++ intPart ++ "." ++ fracPart)
  else Option.none

/-- Smallest power-of-ten expansion of a rational, tried up to 25 digits. -/
def floatStrAux : Nat → ℚ → Option String
  | 0, q => decExpand q 0
  | k + 1, q =>
    match floatStrAux k q with
    | some s => some s
    | Option.none => decExpand q (k + 1)

/-- Approximation of Python `str(float)` (exact for terminating decimals). -/
def floatStr (q : ℚ) : String :=
  match floatStrAux 25 q with
  | some s => s
  | Option.none => toString q.num ++ "/" ++ toString q.den

mutual

/-- Python `repr` of a value (approximated; strings are single-quoted without
escaping, which is exact for the quote-free strings in this development). -/
def pyRepr : PyVal → String
  | PyVal.none => "None"
  | PyVal.bool true => "True"
  | PyVal.bool false => "False"
  | PyVal.int_ i => toString i
  | PyVal.float_ q => floatStr q
  | PyVal.str s => sq ++ s ++ sq
  | PyVal.list xs => "[" ++ joinComma (pyReprList xs) ++ "]"
  | PyVal.dict kvs => "\x7b" ++ joinComma (pyReprDict kvs) ++ "\x7d"

/-- `repr` of each element of a list. -/
def pyReprList : List PyVal → List String
  | [] => []
  | x :: xs => pyRepr x :: pyReprList xs

/-- `repr` of each key/value pair of a dict. -/
def pyReprDict : List (String × PyVal) → List String
  | [] => []
  | (k, v) :: kvs => (sq ++ k ++ sq ++ ": " ++ pyRepr v) :: pyReprDict kvs

end

/-- Python `str(value)`: identity on strings, `repr` otherwise. -/
def pyStr : PyVal → String
  | PyVal.str s => s
  | v => pyRepr v

/-- Round-half-to-even on rationals (Python `round` on an exact value). -/
def roundHalfEven (x : ℚ) : ℤ :=
  let f := ⌊x⌋
  let r := x - f
  if r < 1 / 2 then f
  else if 1 / 2 < r then f + 1
  else if f % 2 = 0 then f else f + 1

/-- Python `round(x, 2)` on the exact-rational model of floats. -/
def pyRound2 (q : ℚ) : ℚ := (roundHalfEven (q * 100) : ℚ) / 100

/-! Module-level constants of `main.py`. -/

def DEFAULT_DELAY_PATTERNS : List String :=
  ["\\b(delay(ed)?|exception|service alert|operational issue)\\b",
   "\\b(weather|storm|backlog)\\b"]

def DEFAULT_IGNORE_PATTERNS : List String :=
  ["\\b(resolved|back to normal|cleared)\\b",
   "\\b(delivered|delivery complete)\\b"]

def DEFAULT_SOURCE_LABEL : String := "apify-actor#carrier-delay-scan"

def DEFAULT_STATUS_CODE : String := "IN_TRANSIT_DELAYED"

def DEFAULT_SNAPSHOT_CHARS : Int := 420

/-- `ActorSettings` dataclass (floats as `ℚ`, headers as association list). -/
structure ActorSettings where
  default_delay_hours : ℚ := 48
  min_delay_hours : ℚ := 24
  snapshot_chars : Int := DEFAULT_SNAPSHOT_CHARS
  source_label : String := DEFAULT_SOURCE_LABEL
  global_headers : List (String × String) := []
  delay_patterns : List String := DEFAULT_DELAY_PATTERNS
  ignore_patterns : List String := DEFAULT_IGNORE_PATTERNS
  request_timeout : ℚ := 12
  concurrency : Nat := 4
  carrier_status_code : String := DEFAULT_STATUS_CODE

/-- `SourceConfig` dataclass. -/
structure SourceConfig where
  url : String
  order_id : String
  carrier : Option String := Option.none
  region : Option String := Option.none
  incident_id : Option String := Option.none
  promised_delivery_date : Option String := Option.none
  expected_delay_hours : Option ℚ := Option.none
  status_selectors : List String := []
  eta_selectors : List String := []
  promised_selectors : List String := []
  status_paths : List String := []
  eta_paths : List String := []
  promised_paths : List String := []
  delay_patterns : List String := []
  ignore_patterns : List String := []
  headers : List (String × String) := []
  metadata : List (String × PyVal) := []
  min_delay_hours : Option ℚ := Option.none
  content_mode : String := "auto"
  source_label : Option String := Option.none
  carrier_status_code : Option String := Option.none

/-- Result of a successful regex search: `match.start()`, `match.end()`,
`match.group(0)`. -/
structure ReSpan where
  mstart : Nat
  mend : Nat
  mtext : String

/-- The `PatternMatch` dataclass. -/
structure PatternMatch where
  pattern : String
  text : String
  mstart : Nat
  mend : Nat
  origin : String

/-- External collaborators abstracted as deterministic functions:
`search p t` is `re.compile(p, re.IGNORECASE)` (falling back to the escaped
literal when `p` is not a valid regex) searched on `t`; `parseDt` is
`dateutil` fuzzy parsing normalized to UTC seconds; `toIso` renders a UTC
timestamp as ISO-8601 with `Z`; `now` is `_now_iso()`; `md5hex` is the
`hashlib.md5` hex digest of a UTF-8 encoded string. -/
structure Oracles where
  search : String → String → Option ReSpan
  parseDt : String → Option ℚ
  toIso : ℚ → String
  now : String
  md5hex : String → String

/-- Python `a or b` where `a` and `b` are strings. -/
def pyOrStr (a b : String) : String := if a = "" then b else a

/-- Python `a or b` where `a : Optional[str]` and `b : str`. -/
def pyOrOptStr (a : Option String) (b : String) : String :=
  match a with
  | some s => pyOrStr s b
  | Option.none => b

/-- Python `a or b` where both operands are `Optional[str]`. -/
def pyOrOpt (a b : Option String) : Option String :=
  match a with
  | some s => if s = "" then b else some s
  | Option.none => b

/-- Python `a or b` where `a : Optional[float]` and `b : float`
(an absent or zero first operand yields the second). -/
def pyOrQ (a : Option ℚ) (b : ℚ) : ℚ :=
  match a with
  | some x => if x = 0 then b else x
  | Option.none => b

/-- Python `if not x: x = y` on an object-valued optional (dataclass
instances are always truthy, so only `None` falls through). -/
def orElseOpt {α : Type} (a b : Option α) : Option α :=
  match a with
  | some x => some x
  | Option.none => b

/-- `_determine_delay_hours`: explicit positive hours verbatim, else the
promised/estimated difference in hours floored at zero, else the fallback.
Timestamps are rational UTC seconds, so `(estimated - promised)
.total_seconds() / 3600` is `(q - p) / 3600`. -/
def determine_delay_hours (expected_delay_hours promised estimated : Option ℚ)
    (fallback : ℚ) : ℚ :=
  match expected_delay_hours with
  | some e =>
    if e ≠ 0 ∧ 0 < e then e
    else
      match promised, estimated with
      | some p, some q => max ((q - p) / 3600) 0
      | _, _ => fallback
  | Option.none =>
    match promised, estimated with
    | some p, some q => max ((q - p) / 3600) 0
    | _, _ => fallback

/-- Python slicing `s[:n]` on a string, counting code points. -/
def strTake (s : String) (n : Nat) : String := String.mk (s.toList.take n)

/-- Python `str.upper()` (ASCII case mapping, which covers the identifier
alphabet used for incident ids). -/
def pyUpper (s : String) : String := String.mk (s.toList.map Char.toUpper)

/-- The derived branch of `_build_incident_id`:
`f"APIFY-{order_id}-{md5(order_id:url)[:8]}".upper()`. -/
def derived_incident_id (md5hex : String → String) (source : SourceConfig) : String :=
  let base := source.order_id ++ ":" ++ source.url
  let digest := strTake (md5hex base) 8
  pyUpper ("APIFY-" ++ source.order_id ++ "-" ++ digest)

/-- `_build_incident_id`: the source-declared id when truthy, else the
derived deterministic id. -/
def build_incident_id (md5hex : String → String) (source : SourceConfig) : String :=
  match source.incident_id with
  | some iid => if iid = "" then derived_incident_id md5hex source else iid
  | Option.none => derived_incident_id md5hex source

/-- Mode selection of `_evaluate_source` (line 223):
`"application/json" in content_type or source.content_mode == "json"`.
The transport content type has been lowercased and the configured mode
lowercased at parse time. -/
def is_json_mode (content_type content_mode : String) : Bool :=
  py_in "application/json" content_type || content_mode == "json"

/-- `_matches_pattern`: falsy text never matches; otherwise some pattern in
the list (compiled case-insensitively, or as an escaped literal when regex
compilation fails — both inside the `search` oracle) matches the text. -/
def matches_pattern (search : String → String → Option ReSpan)
    (text : Option String) (patterns : List String) : Bool :=
  match text with
  | Option.none => false
  | some t => if t = "" then false else patterns.any fun p => (search p t).isSome

/-- Loop body of `_find_pattern`: first pattern in list order that matches. -/
def find_pattern_go (search : String → String → Option ReSpan) (t : String)
    (patterns : List String) (origin : String) : Option PatternMatch :=
  match patterns with
  | [] => Option.none
  | p :: rest =>
    match search p t with
    | some sp =>
      some { pattern := p, text := sp.mtext, mstart := sp.mstart,
             mend := sp.mend, origin := origin }
    | Option.none => find_pattern_go search t rest origin

/-- `_find_pattern`: falsy text yields no match, otherwise the first pattern
in list order that matches, tagged with the supplied origin. -/
def find_pattern (search : String → String → Option ReSpan)
    (text : Option String) (patterns : List String) (origin : String) :
    Option PatternMatch :=
  match text with
  | Option.none => Option.none
  | some t => if t = "" then Option.none else find_pattern_go search t patterns origin

/-- `_context_snippet`: a whitespace-normalized window of radius
`max(size // 2, 80)` around the match, hard-truncated (right-stripped) to
`size` characters, `None` when empty.  Offsets and lengths count code points,
as Python string indexing does. -/
def context_snippet (text : Option String) (m : PatternMatch) (size : Int) :
    Option String :=
  match text with
  | Option.none => Option.none
  | some t =>
    if t = "" then Option.none
    else
      let radius : Int := max (Int.fdiv size 2) 80
      let start : Int := max ((m.mstart : Int) - radius) 0
      let stop : Int := min ((m.mend : Int) + radius) (t.length : Int)
      let snippet := normalize_whitespace
        (String.mk ((t.toList.drop start.toNat).take (stop - start).toNat))
      let snippet :=
        if (snippet.length : Int) > size then
          pyRstrip (String.mk (snippet.toList.take size.toNat))
        else snippet
      if snippet = "" then Option.none else some snippet

/-- `_parse_datetime`: falsy input yields no timestamp; otherwise the
`dateutil` fuzzy-parse-and-normalize step is the `parseDt` oracle, which
returns `none` on unparseable input. -/
def parse_datetime (parseDt : String → Option ℚ) (value : Option String) :
    Option ℚ :=
  match value with
  | Option.none => Option.none
  | some s => if s = "" then Option.none else parseDt s

/-- `_to_iso`: `None` passes through, otherwise render via the oracle. -/
def to_iso (toIso : ℚ → String) (dt : Option ℚ) : Option String :=
  match dt with
  | Option.none => Option.none
  | some d => some (toIso d)

/-- Lift an optional string into the dynamically typed record value. -/
def optStr : Option String → PyVal
  | Option.none => PyVal.none
  | some s => PyVal.str s

/-- The filter of `_evaluate_source` line 296:
`value not in (None, "", [])`. -/
def keepVal : PyVal → Bool
  | PyVal.none => false
  | PyVal.str s => s != ""
  | PyVal.list xs => !xs.isEmpty
  | _ => true

/-- The pure tail of `_evaluate_source` (lines 243–296), entered after the
fetch and the mode-dependent extraction stage: `status_text`, `page_text`,
`estimated_raw` and the selector/path-extracted promised value are its
inputs; the function performs the ignore check, the delay-pattern check with
status precedence, the threshold check, and the sparse incident build.
`promised_raw` is `source.promised_delivery_date or extracted_promised`
exactly as in lines 220/234/240. -/
def evaluate_after_extract (o : Oracles) (source : SourceConfig)
    (settings : ActorSettings) (status_text : Option String)
    (page_text : String) (estimated_raw extracted_promised : Option String) :
    Option (List (String × PyVal)) :=
  let promised_raw := pyOrOpt source.promised_delivery_date extracted_promised
  if matches_pattern o.search status_text source.ignore_patterns
      || matches_pattern o.search (some page_text) source.ignore_patterns then
    Option.none
  else
    match orElseOpt
        (find_pattern o.search status_text source.delay_patterns "status")
        (find_pattern o.search (some page_text) source.delay_patterns "body") with
    | Option.none => Option.none
    | some m =>
      let context_snip := context_snippet
        (if m.origin == "status" then status_text else some page_text) m
        settings.snapshot_chars
      let estimated_dt := parse_datetime o.parseDt (pyOrOpt estimated_raw context_snip)
      let promised_dt := parse_datetime o.parseDt promised_raw
      let effective_min_delay := pyOrQ source.min_delay_hours settings.min_delay_hours
      let delay_hours := determine_delay_hours source.expected_delay_hours
        promised_dt estimated_dt settings.default_delay_hours
      if delay_hours < effective_min_delay then Option.none
      else
        let incident_id := build_incident_id o.md5hex source
        let status_description :=
          pyOrOptStr status_text (pyOrStr m.text "Carrier reported delay.")
        let estimated_iso := pyOrOpt (to_iso o.toIso estimated_dt) estimated_raw
        let promised_iso := pyOrOpt (to_iso o.toIso promised_dt) promised_raw
        let payload : List (String × PyVal) :=
          [("incidentId", PyVal.str incident_id),
           ("orderId", PyVal.str source.order_id),
           ("delayHours", PyVal.float_ (pyRound2 delay_hours)),
           ("promisedDeliveryDate", optStr promised_iso),
           ("estimatedDelivery", optStr estimated_iso),
           ("carrierStatusCode",
             PyVal.str (pyOrOptStr source.carrier_status_code settings.carrier_status_code)),
           ("carrierStatusDescription", PyVal.str status_description),
           ("detectedAt", PyVal.str o.now),
           ("source", PyVal.str (pyOrOptStr source.source_label settings.source_label)),
           ("carrier", optStr source.carrier),
           ("region", optStr source.region),
           ("rawStatusText", optStr status_text),
           ("rawEstimatedDelivery", optStr estimated_raw),
           ("rawPromisedDelivery", optStr promised_raw),
           ("rawSnapshot", optStr context_snip),
           ("matchedPattern", PyVal.str m.pattern),
           ("matchedText", PyVal.str m.text)]
        let payload :=
          if source.metadata.isEmpty then payload
          else payload ++ [("metadata", PyVal.dict source.metadata)]
        some (payload.filter fun kv => keepVal kv.2)

/-! JSON path resolution (`_resolve_json_path`). -/

/-- Python `str.isdigit` on a single character, modelled on the character
set exercised here: ASCII digits together with the superscript digits, which
Unicode (and hence Python) classifies as digits although they are not
decimal digits. -/
def pyDigitChar (c : Char) : Bool :=
  c.isDigit || c = '¹' || c = '²' || c = '³'

/-- Python `str.isdigit`: non-empty and every character a digit. -/
def pyIsDigit (s : String) : Bool :=
  !s.toList.isEmpty && s.toList.all pyDigitChar

/-- Accumulate the decimal value of a digit-only character list; `none` as
soon as a non-decimal character appears (as `int()` raises `ValueError` on
digit-classified characters outside the decimal range). -/
def digitsToNat : List Char → Nat → Option Nat
  | [], acc => some acc
  | c :: rest, acc =>
    if c.isDigit then digitsToNat rest (acc * 10 + (c.toNat - 48)) else Option.none

/-- Python `int(token)` on a token that passed `str.isdigit` (so it carries
no sign or whitespace): the decimal value, or `none` where `int()` raises. -/
def pyIntOfString (s : String) : Option Nat :=
  if s.toList.isEmpty then Option.none else digitsToNat s.toList 0

/-- Separator class of `re.split(r"[.\[\]]", path)`. -/
def isPathSep (c : Char) : Bool := c = '.' || c = '[' || c = ']'

/-- `[token for token in re.split(r"[.\[\]]", path) if token]`. -/
def splitPathTokens (path : String) : List String :=
  splitByAux isPathSep path.toList []

/-- Python dict `get` with default `None` on an insertion-ordered
association list. -/
def dictGet (kvs : List (String × PyVal)) (key : String) : PyVal :=
  match kvs.find? (fun kv => kv.1 == key) with
  | some kv => kv.2
  | Option.none => PyVal.none

/-- Loop of `_resolve_json_path`: `Except.error ()` models an uncaught
`ValueError` escaping the function; `Except.ok PyVal.none` models `return
None`.  A missing dict key sets the cursor to `None` and continues, exactly
as `current = current.get(token)` does. -/
def resolveTokens : PyVal → List String → Except Unit PyVal
  | current, [] => Except.ok current
  | current, token :: rest =>
    match current with
    | PyVal.list xs =>
      if pyIsDigit token then
        match pyIntOfString token with
        | some index =>
          if index < xs.length then resolveTokens (xs.getD index PyVal.none) rest
          else Except.ok PyVal.none
        | Option.none => Except.error ()
      else Except.ok PyVal.none
    | PyVal.dict kvs => resolveTokens (dictGet kvs token) rest
    | _ => Except.ok PyVal.none

/-- `_resolve_json_path` on a decoded JSON value and a path string. -/
def resolve_json_path (payload : PyVal) (path : String) : Except Unit PyVal :=
  resolveTokens payload (splitPathTokens path)

/-! A JSON decoder modelling `json.loads` on the strict JSON grammar
(whitespace, `null`/`true`/`false`, numbers with the leading-zero rule,
double-quoted strings with the standard escapes and `\uXXXX` as a single
code point, arrays, objects).  Arrays decode to `PyVal.list`, integral
numbers without fraction or exponent to `PyVal.int_`, other numbers to
`PyVal.float_`. -/

/-- JSON insignificant whitespace. -/
def jsonWs (c : Char) : Bool := c = ' ' || c = '\t' || c = '\n' || c = '\r'

/-- Skip insignificant whitespace. -/
def skipJsonWs (cs : List Char) : List Char := cs.dropWhile jsonWs

/-- Hexadecimal digit value. -/
def hexVal (c : Char) : Option Nat :=
  if c.isDigit then some (c.toNat - 48)
  else if 'a' ≤ c ∧ c ≤ 'f' then some (c.toNat - 87)
  else if 'A' ≤ c ∧ c ≤ 'F' then some (c.toNat - 55)
  else Option.none

/-- Body of a JSON string literal after the opening quote: returns the
decoded text and the remaining input past the closing quote. -/
def jsonStringAux : List Char → List Char → Option (String × List Char)
  | [], _ => Option.none
  | c :: rest, acc =>
    if c = '"' then some (String.mk acc.reverse, rest)
    else if c = '\\' then
      match rest with
      | [] => Option.none
      | e :: rest2 =>
        if e = '"' then jsonStringAux rest2 ('"' :: acc)
        else if e = '\\' then jsonStringAux rest2 ('\\' :: acc)
        else if e = '/' then jsonStringAux rest2 ('/' :: acc)
        else if e = 'b' then jsonStringAux rest2 ('\x08' :: acc)
        else if e = 'f' then jsonStringAux rest2 ('\x0c' :: acc)
        else if e = 'n' then jsonStringAux rest2 ('\n' :: acc)
        else if e = 'r' then jsonStringAux rest2 ('\r' :: acc)
        else if e = 't' then jsonStringAux rest2 ('\t' :: acc)
        else if e = 'u' then
          match rest2 with
          | h1 :: h2 :: h3 :: h4 :: rest3 =>
            match hexVal h1, hexVal h2, hexVal h3, hexVal h4 with
            | some a, some b, some c2, some d =>
              jsonStringAux rest3
                (Char.ofNat (((a * 16 + b) * 16 + c2) * 16 + d) :: acc)
            | _, _, _, _ => Option.none
          | _ => Option.none
        else Option.none
    else if c.toNat < 32 then Option.none
    else jsonStringAux rest (c :: acc)

/-- Leading decimal digits and the rest of the input. -/
def jsonDigits (cs : List Char) : List Char × List Char :=
  (cs.takeWhile Char.isDigit, cs.dropWhile Char.isDigit)

/-- Value of a decimal digit list. -/
def natOfDigits (ds : List Char) : Nat :=
  ds.foldl (fun a c => a * 10 + (c.toNat - 48)) 0

/-- JSON exponent part after `e`/`E`: optional sign then digits. -/
def parseJsonExp (cs : List Char) : Option (Int × List Char) :=
  let sgn : Int := match cs with | '-' :: _ => -1 | _ => 1
  let cs1 := match cs with | '-' :: r => r | '+' :: r => r | _ => cs
  let (ds, rest) := jsonDigits cs1
  if ds.isEmpty then Option.none else some (sgn * natOfDigits ds, rest)

/-- JSON number: `-?(0|[1-9][0-9]*)(\.[0-9]+)?([eE][+-]?[0-9]+)?`.  Yields an
`int_` when neither fraction nor exponent is present, a `float_` otherwise. -/
def parseJsonNumber (cs : List Char) : Option (PyVal × List Char) :=
  let sgn : ℚ := match cs with | '-' :: _ => -1 | _ => 1
  let cs1 := match cs with | '-' :: r => r | _ => cs
  match cs1 with
  | [] => Option.none
  | c :: _ =>
    if !c.isDigit then Option.none
    else
      let (ids, cs2) := jsonDigits cs1
      if ids.length > 1 ∧ ids.headD '0' = '0' then Option.none
      else
        let intPart : Nat := natOfDigits ids
        match cs2 with
        | '.' :: r =>
          let (fd, cs3) := jsonDigits r
          if fd.isEmpty then Option.none
          else
            let mant : ℚ := intPart + (natOfDigits fd : ℚ) / (10 : ℚ) ^ fd.length
            match cs3 with
            | e :: r2 =>
              if e = 'e' ∨ e = 'E' then
                match parseJsonExp r2 with
                | some (ex, r3) => some (PyVal.float_ (sgn * mant * (10 : ℚ) ^ ex), r3)
                | Option.none => Option.none
              else some (PyVal.float_ (sgn * mant), cs3)
            | [] => some (PyVal.float_ (sgn * mant), cs3)
        | e :: r2 =>
          if e = 'e' ∨ e = 'E' then
            match parseJsonExp r2 with
            | some (ex, r3) => some (PyVal.float_ (sgn * intPart * (10 : ℚ) ^ ex), r3)
            | Option.none => Option.none
          else some (PyVal.int_ (sgn.num * intPart), cs2)
        | [] => some (PyVal.int_ (sgn.num * intPart), cs2)

mutual

/-- One JSON value, fuel-bounded (the fuel strictly exceeds any possible
recursion depth for the given input). -/
def parseJsonValue : Nat → List Char → Option (PyVal × List Char)
  | 0, _ => Option.none
  | fuel + 1, cs =>
    match skipJsonWs cs with
    | [] => Option.none
    | c :: rest =>
      if c = 'n' then
        if ['u', 'l', 'l'].isPrefixOf rest then some (PyVal.none, rest.drop 3)
        else Option.none
      else if c = 't' then
        if ['r', 'u', 'e'].isPrefixOf rest then some (PyVal.bool true, rest.drop 3)
        else Option.none
      else if c = 'f' then
        if ['a', 'l', 's', 'e'].isPrefixOf rest then some (PyVal.bool false, rest.drop 4)
        else Option.none
      else if c = '"' then
        match jsonStringAux rest [] with
        | some (s, r) => some (PyVal.str s, r)
        | Option.none => Option.none
      else if c = '[' then
        match skipJsonWs rest with
        | ']' :: r => some (PyVal.list [], r)
        | r =>
          match parseJsonArrayItems fuel r with
          | some (vs, r2) => some (PyVal.list vs, r2)
          | Option.none => Option.none
      else if c = '\x7b' then
        match skipJsonWs rest with
        | '\x7d' :: r => some (PyVal.dict [], r)
        | r =>
          match parseJsonObjectItems fuel r with
          | some (kvs, r2) => some (PyVal.dict kvs, r2)
          | Option.none => Option.none
      else parseJsonNumber (c :: rest)

/-- One or more comma-separated array items up to the closing bracket. -/
def parseJsonArrayItems : Nat → List Char → Option (List PyVal × List Char)
  | 0, _ => Option.none
  | fuel + 1, cs =>
    match parseJsonValue fuel cs with
    | Option.none => Option.none
    | some (v, rest) =>
      match skipJsonWs rest with
      | ',' :: r2 =>
        match parseJsonArrayItems fuel r2 with
        | some (vs, r3) => some (v :: vs, r3)
        | Option.none => Option.none
      | ']' :: r2 => some ([v], r2)
      | _ => Option.none

/-- One or more comma-separated object members up to the closing brace. -/
def parseJsonObjectItems : Nat → List Char → Option (List (String × PyVal) × List Char)
  | 0, _ => Option.none
  | fuel + 1, cs =>
    match skipJsonWs cs with
    | '"' :: r =>
      match jsonStringAux r [] with
      | Option.none => Option.none
      | some (k, r2) =>
        match skipJsonWs r2 with
        | ':' :: r3 =>
          match parseJsonValue fuel r3 with
          | Option.none => Option.none
          | some (v, r4) =>
            match skipJsonWs r4 with
            | ',' :: r5 =>
              match parseJsonObjectItems fuel r5 with
              | some (kvs, r6) => some ((k, v) :: kvs, r6)
              | Option.none => Option.none
            | '\x7d' :: r5 => some ([(k, v)], r5)
            | _ => Option.none
        | _ => Option.none
    | _ => Option.none

end

/-- `json.loads`: decode one value and require only whitespace after it. -/
def json_loads (s : String) : Option PyVal :=
  match parseJsonValue (2 * s.length + 8) s.toList with
  | some (v, rest) => if (skipJsonWs rest).isEmpty then some v else Option.none
  | Option.none => Option.none

/-! `_ensure_list`. -/

/-- The sequence comprehension of `_ensure_list`:
`str(item)` for each item that is neither `None` nor the empty string. -/
def seqItemStr : PyVal → Option String
  | PyVal.none => Option.none
  | PyVal.str s => if s = "" then Option.none else some s
  | v => some (pyStr v)

/-- Separator class of `re.split(r"[\n,]+", stripped)`. -/
def isNlComma (c : Char) : Bool := c = '\n' || c = ','

/-- `_ensure_list`: normalize a dynamically typed configuration value into a
list of strings. -/
def ensure_list (value : PyVal) : List String :=
  match value with
  | PyVal.none => []
  | PyVal.list items => items.filterMap seqItemStr
  | PyVal.str s =>
    let stripped := pyStrip s
    if stripped = "" then []
    else
      match json_loads stripped with
      | Option.none =>
        let parts := ((splitByAux isNlComma stripped.toList []).map pyStrip).filter
          fun p => p ≠ ""
        if parts.isEmpty then [stripped] else parts
      | some parsed =>
        match parsed with
        | PyVal.list items => items.filterMap seqItemStr
        | PyVal.str inner => if pyStrip inner = "" then [] else [pyStrip inner]
        | _ => []
  | v => [pyStr v]

/-- Boolean form of the item filter of `_ensure_list`
(`item not in (None, "")`). -/
def keptItem : PyVal → Bool
  | PyVal.none => false
  | PyVal.str s => s != ""
  | _ => true

/-- The amended C9 normalization contract, written clause by clause from the
amended claim: a native sequence yields the string form of each item other
than `None` and the empty string; a string decoding as a JSON array yields
the decoded items likewise; a string decoding as a JSON string yields its
stripped value as a single entry when non-blank and nothing otherwise; a
string decoding as any other JSON value yields nothing; a non-JSON string
yields its non-empty comma/newline segments, or itself (stripped) as a
single entry when it has no such segment; `None` yields nothing; any other
scalar yields its string form. -/
def ensure_list_spec (value : PyVal) : List String :=
  match value with
  | PyVal.list items => (items.filter keptItem).map pyStr
  | PyVal.str s =>
    let t := pyStrip s
    if t = "" then []
    else
      match json_loads t with
      | some (PyVal.list items) => (items.filter keptItem).map pyStr
      | some (PyVal.str inner) =>
        if pyStrip inner = "" then [] else [pyStrip inner]
      | some _ => []
      | Option.none =>
        let segs := ((splitByAux isNlComma t.toList []).map pyStrip).filter
          fun p => p ≠ ""
        if segs.isEmpty then [t] else segs
  | PyVal.none => []
  | v => [pyStr v]

/-! Concrete fixtures used by the witness theorems.  The theorems themselves
quantify over the oracles; the fixtures only exhibit satisfying inputs. -/

/-- First index at which `p` occurs in `t`, counting from `i`. -/
def firstOccAux (p : List Char) : List Char → Nat → Option Nat
  | [], i => if p.isPrefixOf ([] : List Char) then some i else Option.none
  | c :: rest, i =>
    if p.isPrefixOf (c :: rest) then some i else firstOccAux p rest (i + 1)

/-- A concrete instance of the regex-search oracle: leftmost occurrence of
the pattern taken literally, which agrees with `re.search` for patterns
containing no regex metacharacters when the text is in matching case. -/
def substrSearch (pattern text : String) : Option ReSpan :=
  match firstOccAux pattern.toList text.toList 0 with
  | some i => some { mstart := i, mend := i + pattern.length, mtext := pattern }
  | Option.none => Option.none

/-- Concrete oracle bundle for witnesses. -/
def testOracles : Oracles where
  search := substrSearch
  parseDt := fun _ => Option.none
  toIso := fun _ => ""
  now := "2024-05-01T00:00:00Z"
  md5hex := fun _ => "0123456789abcdef"

/-- A minimal source configuration used by witnesses. -/
def srcDelay : SourceConfig where
  url := "https://status.example/a"
  order_id := "o1"
  delay_patterns := ["delayed"]
  ignore_patterns := ["resolved"]

/-- Settings with a zero engine threshold, so witnesses can reach the
incident build. -/
def setLow : ActorSettings where
  min_delay_hours := 0

/-- Settings whose default fallback hours sit below the engine threshold. -/
def setSmallDefault : ActorSettings where
  default_delay_hours := 10

/-! Theorems. -/

/-- Values surviving the sparse filter are not `None`, `""` or `[]`. -/
theorem keepVal_spec (v : PyVal) (h : keepVal v = true) :
    v ≠ PyVal.none ∧ v ≠ PyVal.str "" ∧ v ≠ PyVal.list [] := by
  cases v <;> simp_all [keepVal]

/-- `_find_pattern` tags every produced match with the supplied origin. -/
theorem find_pattern_go_origin (search : String → String → Option ReSpan)
    (t : String) (patterns : List String) (origin : String) (m : PatternMatch)
    (h : find_pattern_go search t patterns origin = some m) : m.origin = origin := by
  induction patterns with
  | nil => simp [find_pattern_go] at h
  | cons p rest ih =>
    rw [find_pattern_go] at h
    cases hs : search p t with
    | none => rw [hs] at h; exact ih h
    | some sp => rw [hs] at h; cases h; rfl

/-- If some pattern in the list matches, `_find_pattern`'s loop succeeds. -/
theorem find_pattern_go_of_any (search : String → String → Option ReSpan)
    (t : String) (patterns : List String) (origin : String)
    (h : ∃ p ∈ patterns, (search p t).isSome = true) :
    ∃ m, find_pattern_go search t patterns origin = some m := by
  induction patterns with
  | nil => simp at h
  | cons p rest ih =>
    rw [find_pattern_go]
    cases hs : search p t with
    | some sp => exact ⟨_, rfl⟩
    | none =>
      rcases h with ⟨p2, hp2, hsome⟩
      rcases List.mem_cons.mp hp2 with rfl | hmem
      · rw [hs] at hsome; simp at hsome
      · exact ih ⟨p2, hmem, hsome⟩

/-- The loop of `_find_pattern` selects the first matching pattern in list
order: every earlier pattern fails on the text. -/
theorem find_pattern_go_first (search : String → String → Option ReSpan)
    (t : String) (patterns : List String) (origin : String) (m : PatternMatch)
    (h : find_pattern_go search t patterns origin = some m) :
    ∃ i, ∃ hi : i < patterns.length,
      patterns.get ⟨i, hi⟩ = m.pattern ∧ (search m.pattern t).isSome = true ∧
      ∀ j, ∀ hj : j < patterns.length, j < i →
        search (patterns.get ⟨j, hj⟩) t = Option.none := by
  induction patterns with
  | nil => simp [find_pattern_go] at h
  | cons p rest ih =>
    rw [find_pattern_go] at h
    cases hs : search p t with
    | some sp =>
      rw [hs] at h
      cases h
      exact ⟨0, by simp, rfl, by simp [hs], fun j hj hj0 => absurd hj0 (Nat.not_lt_zero j)⟩
    | none =>
      rw [hs] at h
      rcases ih h with ⟨i, hi, hpat, hsome, hbefore⟩
      refine ⟨i + 1, by simpa using Nat.succ_lt_succ hi, hpat, hsome, ?_⟩
      intro j hj hj1
      cases j with
      | zero => simpa using hs
      | succ j0 =>
        exact hbefore j0 (by simpa using Nat.lt_of_succ_lt_succ hj)
          (Nat.lt_of_succ_lt_succ hj1)

/-- C1: `_determine_delay_hours` follows a three-tier priority.  An explicit
expected-delay value greater than zero is returned verbatim, whatever the
timestamps say; otherwise, when both timestamps are present the result is
`(estimated - promised)` converted to hours and floored at zero (exactly `0`
for an early or on-time estimate); otherwise the configured fallback. -/
theorem C1_delay_hours_three_tiers (expected promised estimated : Option ℚ)
    (fallback : ℚ) :
    (∀ e, expected = some e → 0 < e →
      determine_delay_hours expected promised estimated fallback = e) ∧
    ((expected = Option.none ∨ ∃ e, expected = some e ∧ e ≤ 0) →
      (∀ p q, promised = some p → estimated = some q →
        determine_delay_hours expected promised estimated fallback =
          max ((q - p) / 3600) 0 ∧
        (q ≤ p → determine_delay_hours expected promised estimated fallback = 0)) ∧
      ((promised = Option.none ∨ estimated = Option.none) →
        determine_delay_hours expected promised estimated fallback = fallback)) := by
  constructor
  · rintro e rfl hpos
    simp [determine_delay_hours, hpos, hpos.ne']
  · intro hfalsy
    have hspill :
        determine_delay_hours expected promised estimated fallback =
          match promised, estimated with
          | some p, some q => max ((q - p) / 3600) 0
          | _, _ => fallback := by
      rcases hfalsy with rfl | ⟨e, rfl, hle⟩
      · rfl
      · have hcond : ¬(e ≠ 0 ∧ 0 < e) := by
          rintro ⟨-, hpos⟩
          exact absurd hpos (not_lt.mpr hle)
        simp only [determine_delay_hours, if_neg hcond]
    constructor
    · rintro p q rfl rfl
      refine ⟨hspill, fun hqp => ?_⟩
      rw [hspill]
      have hnp : (q - p) / 3600 ≤ 0 := by
        have h1 : q - p ≤ 0 := sub_nonpos.mpr hqp
        linarith
      exact max_eq_right hnp
    · rintro (rfl | rfl)
      · rw [hspill]
      · rw [hspill]; cases promised <;> rfl

/-- C1 witness: tier 1 at an explicit 7-hour delay with disagreeing
timestamps (promised at epoch, estimated 60 hours later). -/
theorem C1_delay_hours_witness :
    determine_delay_hours (some 7) (some 0) (some 216000) 48 = 7 :=
  (C1_delay_hours_three_tiers (some 7) (some 0) (some 216000) 48).1 7 rfl
    (by norm_num)

/-- C4: with no source-declared incident id, `_build_incident_id` derives
`APIFY-{orderId}-{first 8 hex chars of md5(orderId:url)}`, uppercased as a
whole, and the result is a pure function of the `(orderId, url)` pair (the
digest being the fixed md5 hex function). -/
theorem C4_incident_id_deterministic (md5hex : String → String)
    (source source2 : SourceConfig) (h : source.incident_id = Option.none) :
    build_incident_id md5hex source =
      pyUpper ("APIFY-" ++ source.order_id ++ "-" ++
        strTake (md5hex (source.order_id ++ ":" ++ source.url)) 8) ∧
    (source2.incident_id = Option.none → source2.order_id = source.order_id →
      source2.url = source.url →
      build_incident_id md5hex source2 = build_incident_id md5hex source) := by
  constructor
  · simp [build_incident_id, h, derived_incident_id]
  · intro h2 ho hu
    simp [build_incident_id, h, h2, derived_incident_id, ho, hu]

/-- C4 witness: the derived id of the fixture source under a concrete digest
oracle. -/
theorem C4_incident_id_witness :
    srcDelay.incident_id = Option.none ∧
    build_incident_id (fun _ => "0123456789abcdef") srcDelay =
      "APIFY-O1-01234567" :=
  ⟨rfl,
    ((C4_incident_id_deterministic (fun _ => "0123456789abcdef") srcDelay srcDelay
        rfl).1).trans (by rfl)⟩

/-- C7: evidence for the code bug.  The claim (and the spec) say path
resolution is total and never raises, but `_resolve_json_path` calls
`int(token)` under a `token.isdigit()` guard, and Python classifies the
superscript two as a digit while `int()` rejects it: resolving the path `"²"`
against the list `[1]` raises an uncaught `ValueError` instead of returning
`None`. -/
theorem C7_resolve_raises_on_superscript_digit :
    resolve_json_path (PyVal.list [PyVal.int_ 1]) "²" = Except.error () := by
  rfl

/-- C8 counterexample: a source that forces `html` mode is still evaluated
in JSON mode when the transport content type contains `application/json` —
line 223 tests `"application/json" in content_type or mode == "json"`, so
only a forced `json` mode overrides sniffing, and a forced `html` mode does
not. -/
theorem C8_counterexample_forced_html_ignored :
    is_json_mode "application/json" "html" = true := by
  rfl

/-- C8 amended: a forced `json` mode always selects JSON extraction; a
content type containing `application/json` always selects JSON extraction
regardless of any forced mode; HTML extraction is used exactly when neither
holds. -/
theorem C8_amended_mode_selection (content_type content_mode : String) :
    (content_mode = "json" → is_json_mode content_type content_mode = true) ∧
    (py_in "application/json" content_type = true →
      is_json_mode content_type content_mode = true) ∧
    (py_in "application/json" content_type = false → content_mode ≠ "json" →
      is_json_mode content_type content_mode = false) := by
  refine ⟨fun h => ?_, fun h => ?_, fun h h2 => ?_⟩ <;>
    simp [is_json_mode, h]
  exact h2

/-- C8 amended witness: a plain HTML response with no forced JSON mode is
extracted in HTML mode. -/
theorem C8_amended_witness :
    py_in "application/json" "text/html" = false ∧ "html" ≠ "json" ∧
    is_json_mode "text/html" "html" = false :=
  ⟨by rfl, by decide,
    (C8_amended_mode_selection "text/html" "html").2.2 (by rfl) (by decide)⟩

/-- The comprehension of `_ensure_list` equals filtering the kept items and
taking their string form. -/
theorem filterMap_seqItemStr (items : List PyVal) :
    items.filterMap seqItemStr = (items.filter keptItem).map pyStr := by
  induction items with
  | nil => rfl
  | cons v rest ih =>
    cases v with
    | str s =>
      by_cases hs : s = "" <;>
        simp [List.filterMap_cons, List.filter_cons, seqItemStr, keptItem, hs, ih, pyStr]
    | _ =>
      simp [List.filterMap_cons, List.filter_cons, seqItemStr, keptItem, ih]

/-- C9 counterexample: the claim says a comma/newline-delimited plain string
yields one entry per non-empty segment, so `"42"` should yield `["42"]`; but
`"42"` decodes as the JSON number `42`, which is neither an array nor a
string, so `_ensure_list` returns the empty list.  It also says a native
sequence yields its items, but `None` and empty-string items are dropped. -/
theorem C9_counterexample_json_scalar_string :
    ensure_list (PyVal.str "42") = [] ∧
    ensure_list (PyVal.list [PyVal.str "a", PyVal.none, PyVal.str ""]) = ["a"] := by
  constructor <;> rfl

/-- C9 amended: `_ensure_list` realizes, case by case, the amended
normalization contract `ensure_list_spec` (native sequences keep only items
other than `None`/`""`, stringified; a string is JSON-decoded first, an array
giving its kept items, a JSON string giving its stripped value when
non-blank, any other JSON value giving nothing; a non-JSON string gives its
non-empty comma/newline segments, falling back to itself stripped; `None`
gives nothing; other scalars give their string form). -/
theorem C9_amended_normalization (value : PyVal) :
    ensure_list value = ensure_list_spec value := by
  cases value with
  | list items => simp [ensure_list, ensure_list_spec, filterMap_seqItemStr]
  | str s =>
    simp only [ensure_list, ensure_list_spec]
    by_cases h : pyStrip s = ""
    · simp [h]
    · cases hj : json_loads (pyStrip s) with
      | none => simp [h, hj]
      | some parsed => cases parsed <;> simp [h, hj, filterMap_seqItemStr]
  | _ => rfl

/-- C10 counterexample: the claim says only a positive per-source override
takes effect, but the guard on line 258 is Python truthiness, so a negative
override such as `-1` is kept as the effective threshold instead of the
engine default `24` — and it is not positive. -/
theorem C10_counterexample_negative_override :
    pyOrQ (some (-1 : ℚ)) 24 = -1 ∧ pyOrQ (some (-1 : ℚ)) 24 ≠ 24 ∧
    ¬(0 < (-1 : ℚ)) := by
  refine ⟨by norm_num [pyOrQ], by norm_num [pyOrQ], by norm_num⟩

/-- C10 amended: a per-source minimum-delay override equal to `0` is treated
as absent — the engine default applies, and the whole evaluation behaves as
if the override were missing — while any nonzero override (positive or
negative) takes effect verbatim. -/
theorem C10_amended_zero_override (o : Oracles) (source : SourceConfig)
    (settings : ActorSettings) (status_text : Option String) (page_text : String)
    (estimated_raw extracted_promised : Option String) (x : ℚ) :
    pyOrQ (some 0) settings.min_delay_hours = settings.min_delay_hours ∧
    pyOrQ Option.none settings.min_delay_hours = settings.min_delay_hours ∧
    (x ≠ 0 → pyOrQ (some x) settings.min_delay_hours = x) ∧
    evaluate_after_extract o { source with min_delay_hours := some 0 } settings
        status_text page_text estimated_raw extracted_promised =
      evaluate_after_extract o { source with min_delay_hours := Option.none }
        settings status_text page_text estimated_raw extracted_promised := by
  refine ⟨by simp [pyOrQ], rfl, fun hx => by simp [pyOrQ, hx], ?_⟩
  rfl

/-- C10 amended witness: a nonzero (here positive) override takes effect. -/
theorem C10_amended_witness :
    (1 : ℚ) ≠ 0 ∧
    pyOrQ (some (1 : ℚ)) ({} : ActorSettings).min_delay_hours = 1 :=
  ⟨by norm_num,
    (C10_amended_zero_override testOracles srcDelay {} Option.none ""
        Option.none Option.none 1).2.2.1 (by norm_num)⟩

/-- `_find_pattern` tags its result with the supplied origin. -/
theorem find_pattern_origin (search : String → String → Option ReSpan)
    (text : Option String) (patterns : List String) (origin : String)
    (m : PatternMatch) (h : find_pattern search text patterns origin = some m) :
    m.origin = origin := by
  cases text with
  | none => simp [find_pattern] at h
  | some t =>
    rw [find_pattern] at h
    by_cases ht : t = ""
    · simp [ht] at h
    · rw [if_neg ht] at h
      exact find_pattern_go_origin _ _ _ _ _ h

/-- With no delay-pattern match on either candidate, the source is
discarded with no incident. -/
theorem eval_none_of_no_match (o : Oracles) (source : SourceConfig)
    (settings : ActorSettings) (status_text : Option String) (page_text : String)
    (estimated_raw extracted_promised : Option String)
    (h : orElseOpt
        (find_pattern o.search status_text source.delay_patterns "status")
        (find_pattern o.search (some page_text) source.delay_patterns "body") =
      Option.none) :
    evaluate_after_extract o source settings status_text page_text estimated_raw
      extracted_promised = Option.none := by
  simp only [evaluate_after_extract, h]
  split <;> rfl

/-- C2: delay patterns are tried in configured list order against the status
candidate first; a status-candidate match (of any listed pattern) is always
the selected match, with origin `status`, even if a body match exists; only
when no pattern matches the status candidate is the same ordered list tried
against the body; and when neither candidate matches, the source is
discarded with no incident. -/
theorem C2_status_precedence (o : Oracles) (source : SourceConfig)
    (settings : ActorSettings) (status_text : Option String) (page_text : String)
    (estimated_raw extracted_promised : Option String) :
    (∀ m, find_pattern o.search status_text source.delay_patterns "status" = some m →
      m.origin = "status" ∧
      orElseOpt (find_pattern o.search status_text source.delay_patterns "status")
        (find_pattern o.search (some page_text) source.delay_patterns "body") =
        some m) ∧
    (∀ t, status_text = some t → t ≠ "" →
      (∃ p ∈ source.delay_patterns, (o.search p t).isSome = true) →
      ∃ m, orElseOpt (find_pattern o.search status_text source.delay_patterns "status")
          (find_pattern o.search (some page_text) source.delay_patterns "body") =
          some m ∧ m.origin = "status") ∧
    (find_pattern o.search status_text source.delay_patterns "status" = Option.none →
      orElseOpt (find_pattern o.search status_text source.delay_patterns "status")
        (find_pattern o.search (some page_text) source.delay_patterns "body") =
        find_pattern o.search (some page_text) source.delay_patterns "body") ∧
    (∀ t m, status_text = some t →
      find_pattern o.search status_text source.delay_patterns "status" = some m →
      ∃ i, ∃ hi : i < source.delay_patterns.length,
        source.delay_patterns.get ⟨i, hi⟩ = m.pattern ∧
        (o.search m.pattern t).isSome = true ∧
        ∀ j, ∀ hj : j < source.delay_patterns.length, j < i →
          o.search (source.delay_patterns.get ⟨j, hj⟩) t = Option.none) ∧
    (orElseOpt (find_pattern o.search status_text source.delay_patterns "status")
        (find_pattern o.search (some page_text) source.delay_patterns "body") =
        Option.none →
      evaluate_after_extract o source settings status_text page_text estimated_raw
        extracted_promised = Option.none) := by
  refine ⟨?_, ?_, ?_, ?_, ?_⟩
  · intro m hm
    refine ⟨find_pattern_origin _ _ _ _ _ hm, ?_⟩
    rw [hm]
    rfl
  · rintro t rfl ht hany
    have hgo := find_pattern_go_of_any o.search t source.delay_patterns "status" hany
    rcases hgo with ⟨m, hm⟩
    have hfind : find_pattern o.search (some t) source.delay_patterns "status" = some m := by
      rw [find_pattern, if_neg ht]
      exact hm
    refine ⟨m, ?_, find_pattern_go_origin _ _ _ _ _ hm⟩
    rw [hfind]
    rfl
  · intro h
    rw [h]
    rfl
  · rintro t m rfl hm
    rw [find_pattern] at hm
    by_cases ht : t = ""
    · simp [ht] at hm
    · rw [if_neg ht] at hm
      exact find_pattern_go_first _ _ _ _ _ hm
  · exact eval_none_of_no_match o source settings status_text page_text
      estimated_raw extracted_promised

/-- C2 witness: on the fixture source, the status candidate `"delayed"`
matches, and the selected chain result is that status match. -/
theorem C2_status_precedence_witness :
    (⟨"delayed", "delayed", 0, 7, "status"⟩ : PatternMatch).origin = "status" ∧
    orElseOpt (find_pattern testOracles.search (some "delayed")
        srcDelay.delay_patterns "status")
      (find_pattern testOracles.search (some "delayed page")
        srcDelay.delay_patterns "body") =
      some ⟨"delayed", "delayed", 0, 7, "status"⟩ :=
  (C2_status_precedence testOracles srcDelay {} (some "delayed") "delayed page"
      Option.none Option.none).1 ⟨"delayed", "delayed", 0, 7, "status"⟩ (by rfl)

/-- C3: an ignore-pattern match on the status candidate or on the full-text
body short-circuits the whole source before any delay matching: no incident
is produced, whatever the delay patterns would have matched. -/
theorem C3_ignore_short_circuits (o : Oracles) (source : SourceConfig)
    (settings : ActorSettings) (status_text : Option String) (page_text : String)
    (estimated_raw extracted_promised : Option String)
    (h : (matches_pattern o.search status_text source.ignore_patterns ||
        matches_pattern o.search (some page_text) source.ignore_patterns) = true) :
    evaluate_after_extract o source settings status_text page_text estimated_raw
      extracted_promised = Option.none := by
  simp [evaluate_after_extract, h]

/-- C3 witness: the fixture status candidate matches the ignore pattern
`"resolved"` while the delay pattern `"delayed"` also matches the body, and
no incident is produced. -/
theorem C3_ignore_short_circuits_witness :
    (matches_pattern testOracles.search (some "now resolved") srcDelay.ignore_patterns ||
      matches_pattern testOracles.search (some "it is delayed") srcDelay.ignore_patterns) = true ∧
    matches_pattern testOracles.search (some "it is delayed") srcDelay.delay_patterns = true ∧
    evaluate_after_extract testOracles srcDelay {} (some "now resolved")
      "it is delayed" Option.none Option.none = Option.none :=
  ⟨by rfl, by rfl,
    C3_ignore_short_circuits testOracles srcDelay {} (some "now resolved")
      "it is delayed" Option.none Option.none (by rfl)⟩

/-- C5: every emitted incident record is sparse — no key maps to `None`,
the empty string, or the empty list; such entries are filtered out before
emission. -/
theorem C5_sparse_output (o : Oracles) (source : SourceConfig)
    (settings : ActorSettings) (status_text : Option String) (page_text : String)
    (estimated_raw extracted_promised : Option String)
    (rec : List (String × PyVal))
    (h : evaluate_after_extract o source settings status_text page_text
        estimated_raw extracted_promised = some rec) :
    ∀ kv ∈ rec, kv.2 ≠ PyVal.none ∧ kv.2 ≠ PyVal.str "" ∧ kv.2 ≠ PyVal.list [] := by
  have hfilter : ∃ l : List (String × PyVal),
      rec = l.filter fun kv => keepVal kv.2 := by
    revert h
    simp only [evaluate_after_extract]
    split
    · intro h
      exact absurd h (by simp)
    · split
      · intro h
        exact absurd h (by simp)
      · split <;> split <;> intro h
        · exact absurd h (by simp)
        · exact ⟨_, (Option.some.inj h).symm⟩
        · exact absurd h (by simp)
        · exact ⟨_, (Option.some.inj h).symm⟩
  obtain ⟨l, rfl⟩ := hfilter
  intro kv hkv
  exact keepVal_spec _ (List.mem_filter.mp hkv).2

/-- C5 witness: a concrete run that emits a record; its first entry is the
derived incident id, which is neither `None` nor empty. -/
theorem C5_sparse_output_witness :
    ("incidentId", PyVal.str "APIFY-O1-01234567") ∈
      (evaluate_after_extract testOracles srcDelay setLow (some "delayed")
        "delayed page" Option.none Option.none).getD [] ∧
    (PyVal.str "APIFY-O1-01234567" ≠ PyVal.none ∧
      PyVal.str "APIFY-O1-01234567" ≠ PyVal.str "" ∧
      PyVal.str "APIFY-O1-01234567" ≠ PyVal.list []) := by
  have h : evaluate_after_extract testOracles srcDelay setLow (some "delayed")
      "delayed page" Option.none Option.none =
      some ((evaluate_after_extract testOracles srcDelay setLow (some "delayed")
        "delayed page" Option.none Option.none).getD []) := by rfl
  have hmem : ("incidentId", PyVal.str "APIFY-O1-01234567") ∈
      (evaluate_after_extract testOracles srcDelay setLow (some "delayed")
        "delayed page" Option.none Option.none).getD [] := List.Mem.head _
  exact ⟨hmem,
    C5_sparse_output testOracles srcDelay setLow (some "delayed") "delayed page"
      Option.none Option.none _ h _ hmem⟩

/-- C6: the effective minimum threshold is the per-source override (when
truthy) or else the engine default, and once a delay match is selected the
source is discarded whenever the computed delay-hours — from whichever tier
of `_determine_delay_hours` — fall below that threshold. -/
theorem C6_threshold_uniform (o : Oracles) (source : SourceConfig)
    (settings : ActorSettings) (status_text : Option String) (page_text : String)
    (estimated_raw extracted_promised : Option String) (m : PatternMatch)
    (hm : orElseOpt
        (find_pattern o.search status_text source.delay_patterns "status")
        (find_pattern o.search (some page_text) source.delay_patterns "body") =
      some m)
    (hd : determine_delay_hours source.expected_delay_hours
        (parse_datetime o.parseDt
          (pyOrOpt source.promised_delivery_date extracted_promised))
        (parse_datetime o.parseDt (pyOrOpt estimated_raw
          (context_snippet
            (if m.origin == "status" then status_text else some page_text) m
            settings.snapshot_chars)))
        settings.default_delay_hours <
      pyOrQ source.min_delay_hours settings.min_delay_hours) :
    evaluate_after_extract o source settings status_text page_text estimated_raw
      extracted_promised = Option.none := by
  simp only [evaluate_after_extract, hm]
  split <;> rfl

/-- C6 witness: with a 10-hour default fallback (tier 3) and the engine
default threshold of 24 hours, the matched fixture source is discarded. -/
theorem C6_threshold_uniform_witness :
    orElseOpt (find_pattern testOracles.search (some "delayed")
        srcDelay.delay_patterns "status")
      (find_pattern testOracles.search (some "delayed page")
        srcDelay.delay_patterns "body") =
      some ⟨"delayed", "delayed", 0, 7, "status"⟩ ∧
    evaluate_after_extract testOracles srcDelay setSmallDefault (some "delayed")
      "delayed page" Option.none Option.none = Option.none :=
  ⟨by rfl,
    C6_threshold_uniform testOracles srcDelay setSmallDefault (some "delayed")
      "delayed page" Option.none Option.none ⟨"delayed", "delayed", 0, 7, "status"⟩
      (by rfl) (by decide)⟩

end AutoRescue
